import Mathlib

/-!
Verification of the lassie metadata-extraction core (src/lassie/core.py)
against its natural-language specification.

The embedding models Python dictionaries as insertion-ordered association
lists, Python dynamic values as the inductive `PyVal`, and Python runtime
exceptions as the error side of `Except PyErr`.  The external collaborators
(the HTTP client behind `requests.get` and the BeautifulSoup parser) enter
as explicit parameters of `Lassie.fetch`: the collaborator outcome is an
`Except String String` (network error or raw text) and the parser is a
function from a parser identifier and cleaned text to a `Soup`.

Repository files that are imported by core.py but are not under src/
(filters.py, utils.py, compat.py, exceptions.py) are modelled from the
spec; each such definition carries a doc comment starting
"Modelled from the spec:".  Everything else is transcribed from
src/lassie/core.py, line numbers cited in comments.
-/

/-- A parsed markup element: its attributes as an ordered name/value list. -/
structure Element where
  attrs : List (String × String)
deriving DecidableEq

/-- The Tag Tree collaborator result: the parsed document, queryable by tag
name.  `metas`, `links` and `imgs` are the document's meta, link and img
elements in document order; `title` is the text of the title element, if the
document has one (None otherwise, as BeautifulSoup's `soup.title` would be). -/
structure Soup where
  metas : List Element
  links : List Element
  imgs : List Element
  title : Option String
deriving DecidableEq

/-- A dynamically-typed Python value as it flows through the extraction
engine: a string, an int (after `convert_to_int`), a list of strings (after
`value.split(',')`), or None. -/
inductive PyVal where
  | str (s : String)
  | int (n : Int)
  | list (l : List String)
  | none
deriving DecidableEq

/-- A Python dict with string keys and dynamic values, with insertion order. -/
abbrev PyDict := List (String × PyVal)

/-- Python exceptions that the core can raise.  `lassieError` models
`exceptions.LassieError` (exceptions.py is not under src/; per the spec it is
the system's own error kind, wrapping the collaborator failure message or
carrying the empty-content message).  The others model Python runtime errors:
the wrong-arity call (TypeError), the unbound name `url` (NameError), a
missing attribute such as `.split` on None (AttributeError), and a missing
dict key in FILTER_MAPS (KeyError). -/
inductive PyErr where
  | lassieError (msg : String)
  | typeError
  | nameError
  | attributeError
  | keyError
deriving DecidableEq

/-- Python truthiness for `PyVal`: empty string, zero, empty list and None
are falsy. -/
def PyVal.truthy : PyVal → Bool
  | PyVal.str s => s != ""
  | PyVal.int n => n != 0
  | PyVal.list l => !l.isEmpty
  | PyVal.none => false

/-- String prefix test on the underlying character lists (used instead of
`String.startsWith` so that concrete evaluations reduce by `rfl`). -/
def strStartsWith (s p : String) : Bool := p.toList.isPrefixOf s.toList

/-- String suffix test on the underlying character lists. -/
def strEndsWith (s p : String) : Bool := p.toList.isSuffixOf s.toList

/-- Digits-only parse of a character list to a natural number; any
non-digit character makes the whole parse fail, as Python `int(...)` does. -/
def digitsToNat : List Char → Option Nat
  | [] => Option.none
  | c :: cs =>
    if c.isDigit then
      match cs with
      | [] => some (c.toNat - '0'.toNat)
      | _ => (digitsToNat cs).map (fun n => (c.toNat - '0'.toNat) * 10 ^ cs.length + n)
    else Option.none

/-- Python `int(s)` on a string: optional leading minus sign then digits;
anything else fails. -/
def pyStrToInt (s : String) : Option Int :=
  match s.toList with
  | '-' :: rest => (digitsToNat rest).map (fun n => -(n : Int))
  | l => (digitsToNat l).map (fun n => (n : Int))

/-- Modelled from the spec: utils.py is not under src/.  `coerce_int`
(convert_to_int in the source imports) parses a string to an integer; on
failure — non-numeric, empty, or absent (None) input — it yields absent
rather than raising. -/
def convert_to_int : PyVal → PyVal
  | PyVal.str s =>
    match pyStrToInt s with
    | some n => PyVal.int n
    | _ => PyVal.none
  | PyVal.int n => PyVal.int n
  | _ => PyVal.none

/-- Whitespace and line-noise characters stripped by the cleaning pass. -/
def isSpaceChar (c : Char) : Bool := c = ' ' || c = '\n' || c = '\t' || c = '\r'

/-- Modelled from the spec: utils.py is not under src/.  `clean_text`
normalizes the raw document text before tag-tree construction by stripping
leading and trailing whitespace/control noise. -/
def clean_text (s : String) : String :=
  String.mk ((s.toList.dropWhile isSpaceChar).reverse.dropWhile isSpaceChar).reverse

/-- Characters of the path segment up to and including its last slash
(empty when the segment has no slash). -/
def keepThroughLastSlash : List Char → List Char
  | [] => []
  | c :: cs =>
    if cs.contains '/' then c :: keepThroughLastSlash cs
    else if c = '/' then [c] else []

/-- Modelled from the spec: compat.py (which re-exports the standard
library's urljoin) is not under src/.  Joining a raw value against a base
URL: an empty (or absent, falsy) value returns the base, a value that
already carries an http/https scheme is returned unchanged, a root-relative
value is joined to the scheme and host of the base, and any other value is
joined to the base's directory. -/
def urljoin (base raw : String) : String :=
  if raw = "" then base
  else if strStartsWith raw "http://" || strStartsWith raw "https://" then raw
  else
    let schemeRest : String × List Char :=
      if strStartsWith base "https://" then ("https://", base.toList.drop 8)
      else if strStartsWith base "http://" then ("http://", base.toList.drop 7)
      else ("", base.toList)
    let host := schemeRest.2.takeWhile (fun c => c ≠ '/')
    let path := schemeRest.2.drop host.length
    if strStartsWith raw "/" then schemeRest.1 ++ String.mk host ++ raw
    else
      let dir := keepThroughLastSlash path
      schemeRest.1 ++ String.mk host ++ (if dir = [] then "/" else String.mk dir) ++ raw

/-- One meta-tag Source Filter Map entry of FILTER_MAPS: the attribute to
match on, the pattern its value must satisfy, the property-to-output-field
map, and the image/video attribute-value key. -/
structure MetaMap where
  key : String
  pattern : String → Bool
  map : List (String × String)
  image_key : String
  video_key : String

/-- One link-tag Source Filter Map entry of FILTER_MAPS. -/
structure LinkMap where
  key : String
  pattern : String → Bool
  type : String

/-- Modelled from the spec: filters.py (FILTER_MAPS) is not under src/.
Open Graph meta source: matches meta elements whose `property` attribute
starts with "og:"; the image key must be the prefix "og:image" that singles
out the image sub-record properties (og:image, og:image:width,
og:image:height) among all og: properties, and likewise "og:video". -/
def openGraphMap : MetaMap :=
  { key := "property"
  , pattern := fun v => strStartsWith v "og:"
  , map := [("og:url", "url"), ("og:title", "title"), ("og:description", "description"),
            ("og:image", "src"), ("og:image:width", "width"), ("og:image:height", "height"),
            ("og:video", "src"), ("og:video:width", "width"), ("og:video:height", "height"),
            ("og:video:type", "type")]
  , image_key := "og:image"
  , video_key := "og:video" }

/-- Modelled from the spec: filters.py is not under src/.  Twitter Card meta
source: matches meta elements whose `name` attribute starts with
"twitter:". -/
def twitterCardMap : MetaMap :=
  { key := "name"
  , pattern := fun v => strStartsWith v "twitter:"
  , map := [("twitter:url", "url"), ("twitter:title", "title"),
            ("twitter:description", "description"),
            ("twitter:image", "src"), ("twitter:image:width", "width"),
            ("twitter:image:height", "height"),
            ("twitter:player", "src"), ("twitter:player:width", "width"),
            ("twitter:player:height", "height")]
  , image_key := "twitter:image"
  , video_key := "twitter:player" }

/-- Modelled from the spec: filters.py is not under src/.  Generic meta
source: matches meta elements whose `name` attribute is one of the generic
fields (description, keywords).  It has no image/video concept; the spec
says the image/video keys "may be absent" for such a source, which is
modelled as the empty (falsy) string so that the source lines 156-173 of
core.py behave as the spec describes (the empty key never routes a property
into the image or video accumulator because of the truthiness guard at line
167/170). -/
def genericMap : MetaMap :=
  { key := "name"
  , pattern := fun v => v = "description" || v = "keywords"
  , map := [("description", "description"), ("keywords", "keywords")]
  , image_key := ""
  , video_key := "" }

/-- Modelled from the spec: filters.py is not under src/.  Touch-icon link
source: matches link elements whose `rel` attribute is an apple-touch-icon
variant; extracted records are tagged with the source name. -/
def touchIconMap : LinkMap :=
  { key := "rel"
  , pattern := fun v => v = "apple-touch-icon" || v = "apple-touch-icon-precomposed"
  , type := "touch_icon" }

/-- Modelled from the spec: filters.py is not under src/.  Favicon link
source: matches link elements whose `rel` attribute marks a favicon;
extracted records are tagged with the source name. -/
def faviconMap : LinkMap :=
  { key := "rel"
  , pattern := fun v => v = "icon" || v = "shortcut icon"
  , type := "favicon" }

/-- Modelled from the spec: the meta half of FILTER_MAPS, keyed by source
name as core.py lines 95/98/100 pass it.  An unknown key is a Python
KeyError at line 140. -/
def metaFilters : String → Option MetaMap
  | "open_graph" => some openGraphMap
  | "twitter_card" => some twitterCardMap
  | "generic" => some genericMap
  | _ => Option.none

/-- Modelled from the spec: the link half of FILTER_MAPS, keyed by source
name as core.py lines 103/106 pass it. -/
def linkFilters : String → Option LinkMap
  | "touch_icon" => some touchIconMap
  | "favicon" => some faviconMap
  | _ => Option.none

/-- Python dict assignment `d[k] = v` on an insertion-ordered association
list: replaces the value in place if the key exists, appends otherwise. -/
def assocSet (l : PyDict) (k : String) (v : PyVal) : PyDict :=
  if (l.lookup k).isSome then l.map (fun p => if p.1 = k then (k, v) else p)
  else l ++ [(k, v)]

/-- The accumulating Result Record (the `data` dict of core.py line 89):
scalar fields, plus the always-present `images` and `videos` lists. -/
structure Data where
  fields : List (String × PyVal)
  images : List PyDict
  videos : List PyDict
deriving DecidableEq

/-- The empty record `{'images': [], 'videos': []}` of core.py lines 89-92. -/
def Data.empty : Data := ⟨[], [], []⟩

/-- Python `k in data`: membership among the dict's keys.  The dict always
holds the keys `images` and `videos` besides the scalar fields. -/
def Data.hasKey (d : Data) (k : String) : Bool :=
  k == "images" || k == "videos" || (d.fields.lookup k).isSome

/-- Python `data[k] = v` for a scalar field. -/
def Data.setField (d : Data) (k : String) (v : PyVal) : Data :=
  { d with fields := assocSet d.fields k v }

/-- BeautifulSoup `find_all(tag, attrs)` match test: the element has the
attribute and its value satisfies the pattern. -/
def matchesAttr (key : String) (pat : String → Bool) (e : Element) : Bool :=
  match e.attrs.lookup key with
  | some v => pat v
  | _ => false

/-- Core.py line 143: `soup.find_all('meta', meta_key_pattern)`. -/
def find_all_meta (meta : MetaMap) (soup : Soup) : List Element :=
  soup.metas.filter (matchesAttr meta.key meta.pattern)

/-- Core.py line 198: `soup.find_all('link', link_key_pattern)`. -/
def find_all_link (link : LinkMap) (soup : Soup) : List Element :=
  soup.links.filter (matchesAttr link.key link.pattern)

/-- Core.py line 165: `value.split(',')`.  Python str.split on a comma. -/
def splitCommaAux : List Char → List Char → List String
  | [], acc => [String.mk acc.reverse]
  | c :: cs, acc =>
    if c = ',' then String.mk acc.reverse :: splitCommaAux cs []
    else splitCommaAux cs (c :: acc)

/-- Core.py lines 164-165: the keywords value is split on commas; a value
that is not a string (None from a content-less tag) has no `.split` method
and raises AttributeError. -/
def pySplitKeywords : PyVal → Except PyErr PyVal
  | PyVal.str s => Except.ok (PyVal.list (splitCommaAux s.toList []))
  | _ => Except.error PyErr.attributeError

/-- Core.py lines 168-169:
`value if value.startswith(u'http' or u'www') else urljoin(url, value)`.
The Python expression `u'http' or u'www'` evaluates to `'http'`, so the test
is a plain http-prefix check.  The else branch reads the name `url`, which
is bound by no parameter of `_filter_meta_data` and by nothing at module
scope, so reaching it raises NameError.  A non-string value (an int after
width/height coercion) has no `.startswith` and raises AttributeError. -/
def pyResolveImageValue : PyVal → Except PyErr PyVal
  | PyVal.str s =>
    if strStartsWith s "http" then Except.ok (PyVal.str s)
    else Except.error PyErr.nameError
  | _ => Except.error PyErr.attributeError

/-- Core.py line 150: `value = line.get('content')` — the tag's content
attribute, or None when the tag has none. -/
def contentVal (line : Element) : PyVal :=
  match line.attrs.lookup "content" with
  | some s => PyVal.str s
  | _ => PyVal.none

/-- Core.py lines 148-173: the body of the per-element loop of
`_filter_meta_data`.  The state is the data dict plus the pending image and
video accumulators.  Line 152 is the first-source-wins guard; lines 159-162
coerce dimension values; lines 164-165 split keywords; lines 167-173 route
the value into the image accumulator (resolving via lines 168-169), the
video accumulator, or the data dict. -/
def process_meta_line (meta : MetaMap) (st : Data × PyDict × PyDict) (line : Element) :
    Except PyErr (Data × PyDict × PyDict) :=
  let prop := (line.attrs.lookup meta.key).getD ""
  let value0 : PyVal := contentVal line
  match meta.map.lookup prop with
  | Option.none => Except.ok st
  | some field =>
    if st.1.hasKey field then Except.ok st
    else
      -- lines 159-162; the inner `if prop.endswith(('width', 'height'))` at
      -- line 161 repeats the endswith conjunct of line 160, so the coercion
      -- happens exactly when the combined condition of lines 159-160 holds
      let value1 :=
        if (strStartsWith prop meta.image_key || strStartsWith prop meta.video_key)
            && (strEndsWith prop "width" || strEndsWith prop "height")
        then convert_to_int value0 else value0
      match (if prop = "keywords" then pySplitKeywords value1 else Except.ok value1) with
      | Except.error e => Except.error e
      | Except.ok value =>
        if meta.image_key != "" && strStartsWith prop meta.image_key && value.truthy then
          match pyResolveImageValue value with
          | Except.error e => Except.error e
          | Except.ok v => Except.ok (st.1, assocSet st.2.1 field v, st.2.2)
        else if meta.video_key != "" && strStartsWith prop meta.video_key && value.truthy then
          Except.ok (st.1, st.2.1, assocSet st.2.2 field value)
        else
          Except.ok (st.1.setField field value, st.2.1, st.2.2)

/-- The loop of core.py line 148 over all matched meta elements. -/
def process_meta_lines (meta : MetaMap) :
    List Element → Data × PyDict × PyDict → Except PyErr (Data × PyDict × PyDict)
  | [], st => Except.ok st
  | l :: ls, st =>
    match process_meta_line meta st l with
    | Except.error e => Except.error e
    | Except.ok st1 => process_meta_lines meta ls st1

/-- Core.py lines 175-179: after the loop, a non-empty image accumulator is
stamped with `image['type'] = image_prop` — `image_prop` holds
`meta['image_key']`, assigned at line 156 — and appended to `data['images']`;
a non-empty video accumulator is appended to `data['videos']` unstamped. -/
def finalize_meta (image_key : String) (st : Data × PyDict × PyDict) : Data :=
  let d1 :=
    if st.2.1 ≠ [] then
      { st.1 with images := st.1.images ++ [assocSet st.2.1 "type" (PyVal.str image_key)] }
    else st.1
  if st.2.2 ≠ [] then { d1 with videos := d1.videos ++ [st.2.2] } else d1

/-- Core.py lines 140-181 given a resolved filter map: run the loop from the
empty accumulators, then finalize (lines 175-179). -/
def runMetaPass (meta : MetaMap) (soup : Soup) (data : Data) : Except PyErr Data :=
  match process_meta_lines meta (find_all_meta meta soup) (data, [], []) with
  | Except.error e => Except.error e
  | Except.ok st => Except.ok (finalize_meta meta.image_key st)

/-- Core.py lines 129-181: `_filter_meta_data(self, source, soup, data)` as
defined (three parameters besides self).  Line 140 looks the source up in
FILTER_MAPS. -/
def filter_meta_data (source : String) (soup : Soup) (data : Data) : Except PyErr Data :=
  match metaFilters source with
  | some meta => runMetaPass meta soup data
  | _ => Except.error PyErr.keyError

/-- Number of parameters of `_filter_meta_data` besides self, from its
definition at core.py line 129: source, soup, data. -/
def filter_meta_data_paramCount : Nat := 3

/-- Number of arguments besides self that `fetch` passes to
`_filter_meta_data` at core.py lines 95, 98 and 100: source, soup, data,
url. -/
def fetch_meta_call_argCount : Nat := 4

/-- A call `self._filter_meta_data(source, soup, data, url)` as `fetch`
writes it: Python raises TypeError when the argument count does not match
the method's parameter count, before the body runs. -/
def call_filter_meta_data (source : String) (soup : Soup) (data : Data) (_u : String) :
    Except PyErr Data :=
  if fetch_meta_call_argCount = filter_meta_data_paramCount then
    filter_meta_data source soup data
  else Except.error PyErr.typeError

/-- Core.py lines 201-204: the image record one matched link element
produces — `{'src': urljoin(url, line.get('href')), 'type': link['type']}`.
A missing href is Python None, which the Python-2 urljoin treats as falsy
and maps to the base; it is modelled as the empty string. -/
def link_image_record (u : String) (t : String) (l : Element) : PyDict :=
  [("src", PyVal.str (urljoin u ((l.attrs.lookup "href").getD ""))),
   ("type", PyVal.str t)]

/-- Core.py lines 183-206: `_filter_link_tag_data(self, source, soup, data,
url)`.  For every matched link element one image record is appended,
unconditionally. -/
def filter_link_tag_data (source : String) (soup : Soup) (data : Data) (u : String) :
    Except PyErr Data :=
  match linkFilters source with
  | some link =>
    Except.ok { data with
      images := data.images ++ (find_all_link link soup).map (link_image_record u link.type) }
  | _ => Except.error PyErr.keyError

/-- Core.py lines 208-237: `_find_all_images`.  One record per img element:
`src` verbatim (None when the attribute is missing), `alt` defaulting to the
empty string, `type = body_image`, and `width` only when the width attribute
coerces to a truthy int (line 228 `if width:`).  The coerced height at line
231 is assigned at line 233 to the parsed element (`image['height']`), not
to the record being built (`img`), so the record never receives a height
key; the embedding computes it and discards it exactly as the record does
not see it. -/
def find_all_images (soup : Soup) (data : Data) : Except PyErr Data :=
  Except.ok { data with images := data.images ++ soup.imgs.map (fun image =>
    let img : PyDict :=
      [("src", match image.attrs.lookup "src" with
               | some s => PyVal.str s
               | _ => PyVal.none),
       ("alt", PyVal.str ((image.attrs.lookup "alt").getD "")),
       ("type", PyVal.str "body_image")]
    let width := convert_to_int (match image.attrs.lookup "width" with
                                 | some s => PyVal.str s
                                 | _ => PyVal.none)
    let img := if width.truthy then assocSet img "width" width else img
    let _height := convert_to_int (match image.attrs.lookup "height" with
                                   | some s => PyVal.str s
                                   | _ => PyVal.none)
    img) }

/-- Core.py lines 19-27: `merge_settings(fetch_setting, class_setting)`,
method params have priority; None means unset. -/
def merge_settings {α : Type} : Option α → Option α → Option α
  | Option.none, c => c
  | f, Option.none => f
  | f, _ => f

/-- Core.py lines 36-43: the Lassie instance settings as `__init__` leaves
them. -/
structure Lassie where
  open_graph : Option Bool
  twitter_card : Option Bool
  touch_icon : Option Bool
  favicon : Option Bool
  all_images : Option Bool
  parser : String

/-- Core.py `__init__`: every flag None, parser "html5lib". -/
def Lassie.init : Lassie :=
  ⟨Option.none, Option.none, Option.none, Option.none, Option.none, "html5lib"⟩

/-- The arguments a caller passes to `fetch`: for each keyword parameter,
`Option.none` means the caller did not supply it (so Python binds the
signature default), `some v` means the caller supplied the value `v`
(possibly Python None, the inner `Option.none`). -/
structure FetchArgs where
  open_graph : Option (Option Bool)
  twitter_card : Option (Option Bool)
  touch_icon : Option (Option Bool)
  favicon : Option (Option Bool)
  all_images : Option (Option Bool)
  parser : Option (Option String)

/-- A call that supplies none of the optional parameters. -/
def FetchArgs.unsupplied : FetchArgs :=
  ⟨Option.none, Option.none, Option.none, Option.none, Option.none, Option.none⟩

/-- Core.py lines 76-80: the effective value of one boolean option —
the per-call value (the signature default when unsupplied) merged against
the instance setting by `merge_settings`. -/
def effective_flag (supplied : Option (Option Bool)) (sigDefault : Option Bool)
    (inst : Option Bool) : Option Bool :=
  merge_settings (supplied.getD sigDefault) inst

/-- Python truthiness of an Option Bool (None is falsy). -/
def truthyOpt : Option Bool → Bool
  | some b => b
  | _ => false

/-- Core.py lines 121-127: `_retreive_content` — the requests.get
collaborator outcome is either a RequestException (modelled as its message
string), re-raised wrapped as `LassieError(e)`, or the response text. -/
def retreive_content (response : Except String String) : Except PyErr String :=
  match response with
  | Except.error e => Except.error (PyErr.lassieError e)
  | Except.ok t => Except.ok t

/-- Core.py lines 94-100: the three meta passes in priority order — Open
Graph if enabled, Twitter Card if enabled, generic unconditionally — each
written as `data.update(self._filter_meta_data(source, soup, data, url))`.
Since `_filter_meta_data` mutates and returns the same dict, `update` is
modelled as rebinding to the returned record. -/
def runMetaPasses (og tw : Option Bool) (soup : Soup) (data : Data) (u : String) :
    Except PyErr Data :=
  match (if truthyOpt og then call_filter_meta_data "open_graph" soup data u
         else Except.ok data) with
  | Except.error e => Except.error e
  | Except.ok d1 =>
    match (if truthyOpt tw then call_filter_meta_data "twitter_card" soup d1 u
           else Except.ok d1) with
    | Except.error e => Except.error e
    | Except.ok d2 => call_filter_meta_data "generic" soup d2 u

/-- Core.py lines 48-119: `fetch`.  `response` is the outcome of the
requests.get collaborator for `u`; `parse` is the BeautifulSoup collaborator
(parser identifier and cleaned text to tag tree).  Lines 76-81 resolve the
effective options; lines 83-85 retrieve and reject empty content; line 87
parses; lines 89-110 run the passes; lines 112-117 fill the url and title
fallbacks (`soup.title.string` raises AttributeError when the document has
no title element, since `soup.title` is then None). -/
def Lassie.fetch (self : Lassie) (response : Except String String)
    (parse : String → String → Soup) (u : String) (args : FetchArgs) :
    Except PyErr Data :=
  let og := effective_flag args.open_graph (some true) self.open_graph
  let tw := effective_flag args.twitter_card (some true) self.twitter_card
  let ti := effective_flag args.touch_icon (some true) self.touch_icon
  let fav := effective_flag args.favicon (some true) self.favicon
  let ai := effective_flag args.all_images (some false) self.all_images
  -- line 81: parser = merge_settings(parser or self.parser, self.parser);
  -- `parser or self.parser` falls through to the instance parser when the
  -- per-call parser is None or empty, and is never None itself
  let parser0 : String :=
    match args.parser.getD Option.none with
    | some s => if s != "" then s else self.parser
    | _ => self.parser
  let parserEff := (merge_settings (some parser0) (some self.parser)).getD self.parser
  match retreive_content response with
  | Except.error e => Except.error e
  | Except.ok html =>
    if html = "" then Except.error (PyErr.lassieError "There was no content to parse.")
    else
      let soup := parse parserEff (clean_text html)
      match runMetaPasses og tw soup Data.empty u with
      | Except.error e => Except.error e
      | Except.ok d3 =>
        match (if truthyOpt ti then filter_link_tag_data "touch_icon" soup d3 u
               else Except.ok d3) with
        | Except.error e => Except.error e
        | Except.ok d4 =>
          match (if truthyOpt fav then filter_link_tag_data "favicon" soup d4 u
                 else Except.ok d4) with
          | Except.error e => Except.error e
          | Except.ok d5 =>
            match (if truthyOpt ai then find_all_images soup d5 else Except.ok d5) with
            | Except.error e => Except.error e
            | Except.ok d6 =>
              let d7 := if d6.hasKey "url" then d6 else d6.setField "url" (PyVal.str u)
              if d7.hasKey "title" then Except.ok d7
              else
                match soup.title with
                | some t => Except.ok (d7.setField "title" (PyVal.str t))
                | _ => Except.error PyErr.attributeError

/-- Document for claim C1: an Open Graph description and a competing generic
description meta tag. -/
def c1soup : Soup :=
  ⟨[⟨[("property", "og:description"), ("content", "OG")]⟩,
    ⟨[("name", "description"), ("content", "G")]⟩], [], [], Option.none⟩

/-- The raw markup of the C1 document as the fetch collaborator returns it. -/
def c1html : String :=
  "<meta property=\"og:description\" content=\"OG\"><meta name=\"description\" content=\"G\">"

/-- Document for claim C2, the spec's Open Graph scenario page. -/
def c2soup : Soup :=
  ⟨[⟨[("property", "og:title"), ("content", "T")]⟩,
    ⟨[("property", "og:image"), ("content", "/i.png")]⟩,
    ⟨[("name", "description"), ("content", "D")]⟩], [], [], Option.none⟩

/-- The raw markup of the C2 scenario document. -/
def c2html : String :=
  "<meta property=\"og:title\" content=\"T\"><meta property=\"og:image\" content=\"/i.png\"><meta name=\"description\" content=\"D\">"

/-- Document for claim C3: a single Open Graph image property with an
absolute (http) value, so the meta pass completes. -/
def c3soup : Soup :=
  ⟨[⟨[("property", "og:image"), ("content", "http://x/i.png")]⟩], [], [], Option.none⟩

/-- The record the Open Graph pass produces on `c3soup`. -/
def c3resultData : Data :=
  ⟨[], [[("src", PyVal.str "http://x/i.png"), ("type", PyVal.str "og:image")]], []⟩

/-- Witness document for claim C3: one Open Graph image property and one
Open Graph video property, both with absolute (http) values, so the pass
completes and appends one record to each list. -/
def c3wsoup : Soup :=
  ⟨[⟨[("property", "og:image"), ("content", "http://x/i.png")]⟩,
    ⟨[("property", "og:video"), ("content", "http://x/v.mp4")]⟩], [], [], Option.none⟩

/-- The record the Open Graph pass produces on `c3wsoup`: the image record
stamped with the image key, the video record appended verbatim with no
added stamp. -/
def c3wresult : Data :=
  ⟨[], [[("src", PyVal.str "http://x/i.png"), ("type", PyVal.str "og:image")]],
   [[("src", PyVal.str "http://x/v.mp4")]]⟩

/-- Document for claim C4: an Open Graph image whose value is relative, so
the meta image branch must join it against the base. -/
def c4soup : Soup :=
  ⟨[⟨[("property", "og:image"), ("content", "img.png")]⟩], [], [], Option.none⟩

/-- Document for claim C5: one body image with src, width and height. -/
def c5soup : Soup :=
  ⟨[], [], [⟨[("src", "http://x/a.png"), ("width", "200"), ("height", "100")]⟩], Option.none⟩

/-- The record of the C5 body image as `_find_all_images` builds it: width
present, height absent. -/
def c5record : PyDict :=
  [("src", PyVal.str "http://x/a.png"), ("alt", PyVal.str ""),
   ("type", PyVal.str "body_image"), ("width", PyVal.int 200)]

/-- Document for claim C6, the spec's no-matching-tags scenario: only a
title element. -/
def c6soup : Soup := ⟨[], [], [], some "Hello"⟩

/-- Document for claim C10's unbound-name conjunct: an Open Graph image with
a root-relative value, which sends the image branch into the urljoin arm. -/
def c10soup : Soup :=
  ⟨[⟨[("property", "og:image"), ("content", "/i.png")]⟩], [], [], Option.none⟩

/-- A document with no elements at all, for witnesses. -/
def emptySoup : Soup := ⟨[], [], [], Option.none⟩

theorem setField_images (d : Data) (k : String) (v : PyVal) :
    (d.setField k v).images = d.images := rfl

theorem setField_videos (d : Data) (k : String) (v : PyVal) :
    (d.setField k v).videos = d.videos := rfl

theorem process_meta_line_images_videos (meta : MetaMap) (st : Data × PyDict × PyDict)
    (l : Element) (st' : Data × PyDict × PyDict)
    (h : process_meta_line meta st l = Except.ok st') :
    st'.1.images = st.1.images ∧ st'.1.videos = st.1.videos := by
  simp only [process_meta_line] at h
  repeat' split at h
  all_goals
    first
      | exact Except.noConfusion h
      | (cases h; exact ⟨rfl, rfl⟩)

theorem process_meta_lines_images_videos (meta : MetaMap) :
    ∀ (ls : List Element) (st st' : Data × PyDict × PyDict),
      process_meta_lines meta ls st = Except.ok st' →
      st'.1.images = st.1.images ∧ st'.1.videos = st.1.videos := by
  intro ls
  induction ls with
  | nil =>
    intro st st' h
    cases h
    exact ⟨rfl, rfl⟩
  | cons l ls ih =>
    intro st st' h
    unfold process_meta_lines at h
    split at h
    · exact Except.noConfusion h
    · rename_i st1 heq
      have h1 := process_meta_line_images_videos meta st l st1 heq
      have h2 := ih st1 st' h
      exact ⟨h2.1.trans h1.1, h2.2.trans h1.2⟩

theorem call_filter_meta_data_typeError (source : String) (soup : Soup) (data : Data)
    (u : String) : call_filter_meta_data source soup data u = Except.error PyErr.typeError :=
  rfl

theorem runMetaPasses_typeError (og tw : Option Bool) (soup : Soup) (data : Data)
    (u : String) : runMetaPasses og tw soup data u = Except.error PyErr.typeError := by
  unfold runMetaPasses
  cases hog : truthyOpt og <;> cases htw : truthyOpt tw <;>
    simp [hog, htw, call_filter_meta_data_typeError]

theorem finalize_meta_images (ik : String) (st : Data × PyDict × PyDict) :
    (finalize_meta ik st).images = st.1.images ∨
      (finalize_meta ik st).images =
        st.1.images ++ [assocSet st.2.1 "type" (PyVal.str ik)] := by
  simp only [finalize_meta]
  by_cases hi : st.2.1 = []
  · rw [if_neg (not_not_intro hi)]
    by_cases hv : st.2.2 = []
    · rw [if_neg (not_not_intro hv)]
      exact Or.inl rfl
    · rw [if_pos hv]
      exact Or.inl rfl
  · rw [if_pos hi]
    by_cases hv : st.2.2 = []
    · rw [if_neg (not_not_intro hv)]
      exact Or.inr rfl
    · rw [if_pos hv]
      exact Or.inr rfl

theorem finalize_meta_videos (ik : String) (st : Data × PyDict × PyDict) :
    (finalize_meta ik st).videos = st.1.videos ∨
      (finalize_meta ik st).videos = st.1.videos ++ [st.2.2] := by
  simp only [finalize_meta]
  by_cases hi : st.2.1 = []
  · rw [if_neg (not_not_intro hi)]
    by_cases hv : st.2.2 = []
    · rw [if_neg (not_not_intro hv)]
      exact Or.inl rfl
    · rw [if_pos hv]
      exact Or.inr rfl
  · rw [if_pos hi]
    by_cases hv : st.2.2 = []
    · rw [if_neg (not_not_intro hv)]
      exact Or.inl rfl
    · rw [if_pos hv]
      exact Or.inr rfl

/-- Claim C1 (code_bug evidence).  The first-source-wins skip at core.py
line 152 exists, but no final Result Record ever holds the Open Graph value:
on the C1 document — an Open Graph description competing with a generic
description — `fetch` raises TypeError at the meta-pass call (four arguments
against three parameters) before any priority resolution can reach a final
record. -/
theorem c1_priority_law_unreachable :
    Lassie.fetch Lassie.init (Except.ok c1html) (fun _ _ => c1soup)
      "https://site.test/p" FetchArgs.unsupplied = Except.error PyErr.typeError := rfl

/-- Claim C2 (code_bug evidence).  The spec's Open Graph scenario page:
instead of the claimed Result Record, `fetch` raises TypeError at the meta
passes, so no record with title T, description D and the og image is ever
returned. -/
theorem c2_open_graph_scenario_raises :
    Lassie.fetch Lassie.init (Except.ok c2html) (fun _ _ => c2soup)
      "https://site.test/p" FetchArgs.unsupplied = Except.error PyErr.typeError := rfl

/-- Claim C3 counterexample.  A completed Open Graph pass stamps the
appended Image Record with the filter map's image key "og:image" (core.py
line 176 stamps `image_prop`, which holds `meta['image_key']`), which is
neither the source name "open_graph" nor the spec's short source tag
"og". -/
theorem c3_type_stamp_counterexample :
    filter_meta_data "open_graph" c3soup Data.empty = Except.ok c3resultData ∧
    c3resultData.images.map (List.lookup "type") = [some (PyVal.str "og:image")] ∧
    PyVal.str "og:image" ≠ PyVal.str "open_graph" ∧
    PyVal.str "og:image" ≠ PyVal.str "og" :=
  ⟨rfl, rfl, by decide, by decide⟩

/-- Claim C3 (amended).  A single meta-tag pass that completes appends at
most one Image Record and at most one Video Record, however many matched
tags contributed properties: the loop produces one image accumulator and
one video accumulator `st`, the images list either is unchanged or gains
exactly the image accumulator stamped with `type` equal to the source's
image key (not the source name), and the videos list either is unchanged or
gains exactly the video accumulator verbatim — unstamped, with no `type`
key added. -/
theorem c3_meta_pass_aggregation (meta : MetaMap) (soup : Soup) (data d' : Data)
    (h : runMetaPass meta soup data = Except.ok d') :
    ∃ st, process_meta_lines meta (find_all_meta meta soup) (data, [], []) = Except.ok st ∧
      (d'.images = data.images ∨
        d'.images = data.images ++ [assocSet st.2.1 "type" (PyVal.str meta.image_key)]) ∧
      (d'.videos = data.videos ∨ d'.videos = data.videos ++ [st.2.2]) ∧
      d'.images.length ≤ data.images.length + 1 ∧
      d'.videos.length ≤ data.videos.length + 1 := by
  unfold runMetaPass at h
  split at h
  · exact Except.noConfusion h
  · rename_i st heq
    have hp := process_meta_lines_images_videos meta (find_all_meta meta soup)
      (data, [], []) st heq
    cases h
    have h1 := finalize_meta_images meta.image_key st
    have h2 := finalize_meta_videos meta.image_key st
    rw [hp.1] at h1
    rw [hp.2] at h2
    refine ⟨st, heq, h1, h2, ?_, ?_⟩
    · rcases h1 with h1 | h1 <;>
        rw [h1] <;>
        simp only [List.length_append, List.length_cons, List.length_nil] <;>
        omega
    · rcases h2 with h2 | h2 <;>
        rw [h2] <;>
        simp only [List.length_append, List.length_cons, List.length_nil] <;>
        omega

/-- Claim C3 witness: the amended aggregation theorem applied to the
concrete completed Open Graph pass on `c3wsoup`, whose result `c3wresult`
gains one stamped image record and one unstamped video record. -/
theorem c3_meta_pass_aggregation_witness :
    runMetaPass openGraphMap c3wsoup Data.empty = Except.ok c3wresult ∧
    c3wresult.images.length ≤ Data.empty.images.length + 1 ∧
    c3wresult.videos.length ≤ Data.empty.videos.length + 1 := by
  have h := c3_meta_pass_aggregation openGraphMap c3wsoup Data.empty c3wresult rfl
  obtain ⟨st, -, -, -, hil, hvl⟩ := h
  exact ⟨rfl, hil, hvl⟩

/-- Claim C4 (code_bug evidence).  The modelled join satisfies the spec's
two examples, but the meta image branch does not join a relative value: on
an og:image with content "img.png" the branch reaches `urljoin(url, value)`
whose name `url` is unbound in `_filter_meta_data`, so the pass raises
NameError instead of resolving against the base. -/
theorem c4_resolve_url :
    urljoin "https://example.com/a/" "img.png" = "https://example.com/a/img.png" ∧
    urljoin "https://example.com" "https://cdn.example.com/x.png" =
      "https://cdn.example.com/x.png" ∧
    filter_meta_data "open_graph" c4soup Data.empty = Except.error PyErr.nameError :=
  ⟨rfl, rfl, rfl⟩

/-- Claim C5 (code_bug evidence).  On a body image with src, width "200"
and height "100", the appended record has src, alt, type and width but no
height key, although "100" coerces to the integer 100: core.py line 233
assigns the coerced height to the parsed element, not to the record. -/
theorem c5_body_image_height_dropped :
    find_all_images c5soup Data.empty = Except.ok ⟨[], [c5record], []⟩ ∧
    List.lookup "height" c5record = Option.none ∧
    convert_to_int (PyVal.str "100") = PyVal.int 100 :=
  ⟨rfl, rfl, rfl⟩

/-- Claim C6 (code_bug evidence).  On a document holding only
`<title>Hello</title>`, `fetch` raises TypeError at the unconditional
generic meta pass, so the url/title fallback block at core.py lines 112-117
is never reached and the claimed record is never returned. -/
theorem c6_fallback_unreachable :
    Lassie.fetch Lassie.init (Except.ok "<title>Hello</title>") (fun _ _ => c6soup)
      "https://site.test/p" FetchArgs.unsupplied = Except.error PyErr.typeError := rfl

/-- Claim C7: each link-tag pass (touch_icon, favicon) appends exactly one
Image Record per matched link element — src joined against the base url,
type equal to the source name — with no priority suppression and no
deduplication: the result is the old images list extended by the full list
of matches, whatever the accumulated data holds. -/
theorem c7_link_tag_passes (soup : Soup) (data : Data) (u : String) :
    filter_link_tag_data "touch_icon" soup data u =
      Except.ok { data with
        images := data.images ++
          (find_all_link touchIconMap soup).map (link_image_record u "touch_icon") } ∧
    filter_link_tag_data "favicon" soup data u =
      Except.ok { data with
        images := data.images ++
          (find_all_link faviconMap soup).map (link_image_record u "favicon") } :=
  ⟨rfl, rfl⟩

/-- Claim C8 counterexample.  An unsupplied all_images option does not fall
back to the instance-level default: with the instance setting True and the
option unsupplied, the effective value is the signature default False. -/
theorem c8_instance_default_ignored :
    effective_flag Option.none (some false) (some true) = some false ∧
    (some false : Option Bool) ≠ some true :=
  ⟨rfl, by decide⟩

/-- Claim C8 (amended).  A supplied non-None per-call value overrides the
instance setting; a supplied None per-call value falls back to the instance
setting; an unsupplied option takes the method signature's default,
whatever the instance setting is. -/
theorem c8_option_merging_amended (inst : Option Bool) (b d : Bool) :
    effective_flag (some (some b)) (some d) inst = some b ∧
    effective_flag (some Option.none) (some d) inst = inst ∧
    effective_flag Option.none (some d) inst = some d := by
  cases inst <;> exact ⟨rfl, rfl, rfl⟩

/-- Claim C9: when the fetch collaborator fails, `fetch` fails with the
system's own error kind wrapping the collaborator failure (LassieError, not
the collaborator's native error); when the collaborator succeeds with empty
content, `fetch` fails with LassieError and produces no Result Record. -/
theorem c9_error_policy (self : Lassie) (parse : String → String → Soup) (u : String)
    (args : FetchArgs) (e : String) :
    Lassie.fetch self (Except.error e) parse u args =
      Except.error (PyErr.lassieError e) ∧
    Lassie.fetch self (Except.ok "") parse u args =
      Except.error (PyErr.lassieError "There was no content to parse.") :=
  ⟨rfl, rfl⟩

/-- Claim C10: every fetch whose retrieved content is non-empty raises
TypeError — the generic meta pass is unconditional and every
`_filter_meta_data` call site passes four arguments to a method accepting
three besides self — so no Result Record is ever returned; and even called
at its defined arity, the method's image branch reads the unbound name
`url` and raises NameError on a non-http image value. -/
theorem c10_arity_and_unbound_name :
    (∀ (self : Lassie) (parse : String → String → Soup) (u html : String)
        (args : FetchArgs), html ≠ "" →
        Lassie.fetch self (Except.ok html) parse u args = Except.error PyErr.typeError) ∧
    filter_meta_data "open_graph" c10soup Data.empty = Except.error PyErr.nameError := by
  constructor
  · intro self parse u html args h
    simp only [Lassie.fetch, retreive_content]
    rw [if_neg h, runMetaPasses_typeError]
  · rfl

/-- Claim C10 witness: the arity theorem applied to a concrete non-empty
document. -/
theorem c10_arity_witness :
    ("<p></p>" : String) ≠ "" ∧
    Lassie.fetch Lassie.init (Except.ok "<p></p>") (fun _ _ => emptySoup)
      "https://u.test/" FetchArgs.unsupplied = Except.error PyErr.typeError :=
  ⟨by decide,
   c10_arity_and_unbound_name.1 Lassie.init (fun _ _ => emptySoup) "https://u.test/"
     "<p></p>" FetchArgs.unsupplied (by decide)⟩
